import Mathlib

/-!
Shallow embedding of the Playwright MCP browser-automation server
(`src/server.js` `CopilotPlaywrightAgent` and `src/unnamed/part_001`
`PlaywrightMCPServer` / `AIWebAutomationServer`).

The registry is the triple of JS `Map`s `browsers` / `contexts` / `pages`,
modelled as insertion-ordered association lists.  Native Playwright handles
are modelled by structures carrying a numeric identity `nid` (standing for
JS reference identity, which is what `page.context() === context` and
`context.browser() === browser` compare) together with the parent handle.
Fallibility of the underlying engine `close()` calls is modelled by an
oracle `ok : Nat → Bool` telling, per native id, whether that handle's
native close succeeds; a `false` stands for the JS call throwing.  Each
close operation returns the error (if any) together with the registry
state after the call, because in the source an exception propagates while
the mutations already made to the maps are kept.
-/

namespace MCP

/-- Native browser handle; `nid` models the engine object's reference identity. -/
structure Br where
  nid : Nat
deriving DecidableEq, Repr

/-- Native browser-context handle: identity plus the browser that created it
(`context.browser()`). -/
structure Ctx where
  nid : Nat
  br : Br
deriving DecidableEq, Repr

/-- Native page handle: identity plus the context that created it
(`page.context()`). -/
structure Pg where
  nid : Nat
  ctx : Ctx
deriving DecidableEq, Repr

/-- The three id-indexed maps of the server
(`this.browsers`, `this.contexts`, `this.pages`). -/
structure Registry where
  browsers : List (String × Br)
  contexts : List (String × Ctx)
  pages : List (String × Pg)
deriving DecidableEq, Repr

/-- JS `Map.get`: the first binding for the key, if any. -/
def lookup {α : Type} (l : List (String × α)) (k : String) : Option α :=
  (l.find? (fun e => e.1 == k)).map (·.2)

/-- JS `Map.delete`: remove the bindings for the key (JS map keys are unique). -/
def eraseKey {α : Type} (l : List (String × α)) (k : String) : List (String × α) :=
  l.filter (fun e => !(e.1 == k))

/-- Errors thrown by the close operations: a missing id, or a native
engine close that failed (identified by the handle's native id). -/
inductive CloseErr where
  | notFound (what : String) (id : String)
  | native (nid : Nat)
deriving DecidableEq, Repr

/-- Model of `closePage(pageId)` (src/server.js 629–638, part_001 2415–2426):
look the page up, run the native close, and delete the map entry only
after the native close succeeded. -/
def closePage (ok : Nat → Bool) (r : Registry) (pid : String) :
    Option CloseErr × Registry :=
  match lookup r.pages pid with
  | none => (some (.notFound "Page" pid), r)
  | some pg =>
    if ok pg.nid then (none, { r with pages := eraseKey r.pages pid })
    else (some (.native pg.nid), r)

/-- The `for (const [pageId, page] of this.pages.entries())` loop of
`closeContext`/`closeBrowser`: pages whose `page.context()` is `ctx` are
natively closed and deleted in order; a native failure throws, keeping the
failing entry and everything not yet visited.  Returns the failing native
id (if any) and the pages map after the loop. -/
def closePagesLoop (ok : Nat → Bool) (ctx : Ctx) :
    List (String × Pg) → Option Nat × List (String × Pg)
  | [] => (none, [])
  | e :: rest =>
    if e.2.ctx = ctx then
      if ok e.2.nid then closePagesLoop ok ctx rest
      else (some e.2.nid, e :: rest)
    else
      ((closePagesLoop ok ctx rest).1, e :: (closePagesLoop ok ctx rest).2)

/-- Model of `closeContext(contextId)` (src/server.js 640–656, part_001 2428–2447):
close and delete every page of the context, then close the native context
and delete its entry; an exception anywhere propagates, keeping the
mutations already made. -/
def closeContext (ok : Nat → Bool) (r : Registry) (cid : String) :
    Option CloseErr × Registry :=
  match lookup r.contexts cid with
  | none => (some (.notFound "Context" cid), r)
  | some ctx =>
    match (closePagesLoop ok ctx r.pages).1 with
    | some n =>
      (some (.native n), { r with pages := (closePagesLoop ok ctx r.pages).2 })
    | none =>
      if ok ctx.nid then
        (none,
          { r with
            pages := (closePagesLoop ok ctx r.pages).2
            contexts := eraseKey r.contexts cid })
      else
        (some (.native ctx.nid),
          { r with pages := (closePagesLoop ok ctx r.pages).2 })

/-- Outer loop of `closeBrowser`: for every context whose
`context.browser()` is `br`, run the page loop, close the native context,
delete its entry; an exception propagates with the partial state. -/
def closeCtxsLoop (ok : Nat → Bool) (br : Br) :
    List (String × Pg) → List (String × Ctx) →
    Option Nat × List (String × Ctx) × List (String × Pg)
  | pages, [] => (none, [], pages)
  | pages, e :: rest =>
    if e.2.br = br then
      match (closePagesLoop ok e.2 pages).1 with
      | some n => (some n, e :: rest, (closePagesLoop ok e.2 pages).2)
      | none =>
        if ok e.2.nid then closeCtxsLoop ok br (closePagesLoop ok e.2 pages).2 rest
        else (some e.2.nid, e :: rest, (closePagesLoop ok e.2 pages).2)
    else
      ((closeCtxsLoop ok br pages rest).1,
        e :: (closeCtxsLoop ok br pages rest).2.1,
        (closeCtxsLoop ok br pages rest).2.2)

/-- Model of `closeBrowser(browserId)` (src/server.js 658–680, part_001 2449–2474). -/
def closeBrowser (ok : Nat → Bool) (r : Registry) (bid : String) :
    Option CloseErr × Registry :=
  match lookup r.browsers bid with
  | none => (some (.notFound "Browser" bid), r)
  | some br =>
    match (closeCtxsLoop ok br r.pages r.contexts).1 with
    | some n =>
      (some (.native n),
        { r with contexts := (closeCtxsLoop ok br r.pages r.contexts).2.1,
                 pages := (closeCtxsLoop ok br r.pages r.contexts).2.2 })
    | none =>
      if ok br.nid then
        (none, { browsers := eraseKey r.browsers bid,
                 contexts := (closeCtxsLoop ok br r.pages r.contexts).2.1,
                 pages := (closeCtxsLoop ok br r.pages r.contexts).2.2 })
      else
        (some (.native br.nid),
          { r with contexts := (closeCtxsLoop ok br r.pages r.contexts).2.1,
                   pages := (closeCtxsLoop ok br r.pages r.contexts).2.2 })

/-- Errors thrown by the creation operations. -/
inductive CreateErr where
  | duplicateId (id : String)
  | parentNotFound (id : String)
  | unsupportedEngine (kind : String)
deriving DecidableEq, Repr

/-- The engine kinds accepted by the `switch (browserType)` of
`launchBrowser`. -/
def isEngineKind (s : String) : Bool :=
  s == "chromium" || s == "firefox" || s == "webkit"

/-- Model of `launchBrowser(browserType, headless, browserId)` (src/server.js
510–532, part_001 2260–2284): the duplicate-id check comes first, then the
engine-kind switch; the map is mutated only after both succeed.  `fresh` is
the native identity of the newly launched browser.  On error the JS code
throws before mutating, so the caller's registry is unchanged. -/
def launchBrowser (r : Registry) (fresh : Nat) (browserType bid : String) :
    Except CreateErr Registry :=
  if (lookup r.browsers bid).isSome then .error (.duplicateId bid)
  else if isEngineKind browserType then
    .ok { r with browsers := r.browsers ++ [(bid, ⟨fresh⟩)] }
  else .error (.unsupportedEngine browserType)

/-- Model of `createContext(browserId, contextId, ...)` (src/server.js 534–551,
part_001 2286–2305): the parent-browser lookup comes before the
duplicate-id check. -/
def createContext (r : Registry) (fresh : Nat) (bid cid : String) :
    Except CreateErr Registry :=
  match lookup r.browsers bid with
  | none => .error (.parentNotFound bid)
  | some br =>
    if (lookup r.contexts cid).isSome then .error (.duplicateId cid)
    else .ok { r with contexts := r.contexts ++ [(cid, ⟨fresh, br⟩)] }

/-- Model of `createPage(contextId, pageId)` (src/server.js 553–566, part_001
2307–2322): the parent-context lookup comes before the duplicate-id
check. -/
def createPage (r : Registry) (fresh : Nat) (cid pid : String) :
    Except CreateErr Registry :=
  match lookup r.contexts cid with
  | none => .error (.parentNotFound cid)
  | some ctx =>
    if (lookup r.pages pid).isSome then .error (.duplicateId pid)
    else .ok { r with pages := r.pages ++ [(pid, ⟨fresh, ctx⟩)] }

/-! ### Element resolution (`AIWebAutomationServer`, part_001) -/

/-- The ordered strategy list `PLAYWRIGHT_SELECTOR_STRATEGIES`
(part_001 14–23): each entry builds the Playwright locator string the
source passes to `page.locator(...)` from the target description. -/
def PLAYWRIGHT_SELECTOR_STRATEGIES : List (String → String) :=
  [ fun s => s,
    fun s => "text=" ++ s,
    fun s => "[aria-label*=\"" ++ s ++ "\" i]",
    fun s => "[title*=\"" ++ s ++ "\" i]",
    fun s => "[placeholder*=\"" ++ s ++ "\" i]",
    fun s => "button:has-text(\"" ++ s ++ "\")",
    fun s => "a:has-text(\"" ++ s ++ "\")",
    fun s => "*:has-text(\"" ++ s ++ "\")" ]

/-- Runtime DOM behaviour of a page, abstracted per locator string:
how many elements `locator(l).first()`'s underlying query matches, whether
the first candidate is visible within the 1-second probe, and whether the
strategy / count / visibility calls throw. -/
structure PageDom where
  countOf : String → Nat
  visibleOf : String → Bool
  throwsOf : String → Bool

/-- One iteration of the `findElement` loop body succeeds exactly when the
strategy does not throw, the candidate set is non-empty and the first
candidate is visible. -/
def locatorFound (dom : PageDom) (loc : String) : Bool :=
  !dom.throwsOf loc && decide (0 < dom.countOf loc) && dom.visibleOf loc

/-- The `for (const strategy of PLAYWRIGHT_SELECTOR_STRATEGIES)` loop of
`findElement` (part_001 681–699): return the first strategy's locator that
is found and visible; a throwing strategy is caught and skipped. -/
def findElemGo (dom : PageDom) (selector : String) :
    List (String → String) → Option String
  | [] => none
  | strat :: rest =>
    let loc := strat selector
    if locatorFound dom loc then some loc else findElemGo dom selector rest

/-- Model of `findElement(page, selector)` (part_001 681–699): `none` models the
`null` returned when no strategy yields a visible candidate. -/
def findElement (dom : PageDom) (selector : String) : Option String :=
  findElemGo dom selector PLAYWRIGHT_SELECTOR_STRATEGIES

/-! ### Workflow execution (`CopilotPlaywrightAgent.executeWorkflow`) -/

/-- One step of a workflow request body: `{ name, command, context }`
(the context is opaque to the loop and omitted). -/
structure WorkflowStep where
  name : String
  command : String
deriving DecidableEq, Repr

/-- One entry pushed onto `results`: `{ step, result }` on success or
`{ step, error }` when the command threw. -/
inductive WorkflowEntry (R : Type) where
  | success (step : String) (result : R)
  | failure (step : String) (message : String)
deriving DecidableEq, Repr

/-- The response `{ success: true, workflow: results }`. -/
structure WorkflowOutcome (R : Type) where
  success : Bool
  workflow : List (WorkflowEntry R)
deriving DecidableEq, Repr

/-- The `for (const step of workflow) { try ... catch ... }` loop of
`executeWorkflow` (src/server.js 378–391), with the execution of one
command abstracted as `exec` (an `Except.error` models the command
throwing). -/
def workflowLoop {R : Type} (exec : WorkflowStep → Except String R) :
    List WorkflowStep → List (WorkflowEntry R)
  | [] => []
  | s :: rest =>
    (match exec s with
     | .ok result => WorkflowEntry.success s.name result
     | .error msg => WorkflowEntry.failure s.name msg) :: workflowLoop exec rest

/-- Model of `executeWorkflow(workflow, pageId)` (src/server.js 378–391): runs every
step and always answers `success: true`. -/
def executeWorkflow {R : Type} (exec : WorkflowStep → Except String R)
    (steps : List WorkflowStep) : WorkflowOutcome R :=
  { success := true, workflow := workflowLoop exec steps }

/-! ### Wait handling (`AIWebAutomationServer.handleWait`, part_001 582–595) -/

/-- Status events emitted through `emitStatus` by `handleWait`. -/
inductive WaitEvent where
  | warnInvalid (input : String)
  | waiting (ms : Int)
  | complete
deriving DecidableEq, Repr

/-- JS `parseInt(s, 10)`: skip leading whitespace, read an optional sign
and the longest digit run; `none` models `NaN`. -/
def jsParseInt (s : String) : Option Int :=
  let cs := s.data.dropWhile (fun c => c = ' ' || c = '\t' || c = '\n' || c = '\r')
  let signedTail : Int × List Char :=
    match cs with
    | '-' :: r => (-1, r)
    | '+' :: r => (1, r)
    | r => (1, r)
  let ds := signedTail.2.takeWhile (fun c => c.isDigit)
  if ds.isEmpty then none
  else some (signedTail.1 * (ds.foldl (fun acc c => 10 * acc + (c.toNat - 48)) 0 : Nat))

/-- JS `v || d`: `NaN` (here `none`) and `0` are falsy and replaced by the
default; every other number passes through. -/
def jsOrDefault (v : Option Int) (d : Int) : Int :=
  match v with
  | none => d
  | some n => if n = 0 then d else n

/-- Model of `handleWait(socket, page, duration)` (part_001 582–595), with explicit
fuel for the self-call `handleWait(socket, page, "2000")`.  After the
`|| 2000` fallback `waitTime` is never `NaN`, so the source's
`isNaN(waitTime) || waitTime <= 0` test reduces to the sign check.
Returns the emitted events and the milliseconds finally waited;
`none` means the fuel ran out. -/
def handleWaitF : Nat → String → Option (List WaitEvent × Int)
  | 0, _ => none
  | fuel + 1, duration =>
    let waitTime := jsOrDefault (jsParseInt duration) 2000
    if waitTime ≤ 0 then
      match handleWaitF fuel "2000" with
      | none => none
      | some (evs, ms) => some (.warnInvalid duration :: evs, ms)
    else some ([.waiting waitTime, .complete], waitTime)

/-! ### Scroll handling -/

/-- The DOM effect a scroll performs. -/
inductive ScrollEffect where
  | scrollBy (dx dy : Int)
  | toTop
  | toBottom
deriving DecidableEq, Repr

/-- What `handleScroll` does for a direction token: either a scroll effect
or a warning with no scroll. -/
inductive ScrollOutcome where
  | scrolled (effect : ScrollEffect)
  | warnedUnknown (direction : String)
deriving DecidableEq, Repr

/-- JS `String.prototype.toLowerCase` on ASCII input, written over the
character list so that it evaluates by kernel reduction. -/
def jsToLowerCase (s : String) : String :=
  ⟨s.data.map Char.toLower⟩

/-- Model of `handleScroll(socket, page, direction)` (part_001 603–642): the
`switch (direction.toLowerCase())` has cases `down`, `up`, `top`/`home`
and `bottom` (with `scrollAmount = 500`); every other token — including
`left` and `right` — reaches the `default` arm, which emits a warning and
returns without scrolling. -/
def handleScroll (direction : String) : ScrollOutcome :=
  let d := jsToLowerCase direction
  if d == "down" then .scrolled (.scrollBy 0 500)
  else if d == "up" then .scrolled (.scrollBy 0 (-500))
  else if d == "top" || d == "home" then .scrolled .toTop
  else if d == "bottom" then .scrolled .toBottom
  else .warnedUnknown direction

/-- JS `String.prototype.includes`: substring containment. -/
def strIncludes (s pat : String) : Bool :=
  s.data.tails.any (fun t => pat.data.isPrefixOf t)

/-- Model of `extractScrollData(command)` (src/server.js 495–507): the REST variant
maps a command containing `down` to `(0, 500)`, else `up` to `(0, -500)`,
else `right` to `(500, 0)`, else `left` to `(-500, 0)`, and everything
else to the default `(0, 500)` — an unrecognized token scrolls down. -/
def extractScrollData (command : String) : Int × Int :=
  if strIncludes command "down" then (0, 500)
  else if strIncludes command "up" then (0, -500)
  else if strIncludes command "right" then (500, 0)
  else if strIncludes command "left" then (-500, 0)
  else (0, 500)

/-! ### Session cleanup (`AIWebAutomationServer.cleanupSession`,
part_001 1115–1144) -/

/-- One entry of `activeSessions`: the per-socket browser and page. -/
structure Session where
  page : Option Pg
  browser : Option Br
deriving DecidableEq, Repr

/-- Errors logged by `cleanupSession` when a native close throws. -/
inductive CleanupLog where
  | pageCloseFailed (nid : Nat)
  | browserCloseFailed (nid : Nat)
deriving DecidableEq, Repr

/-- Model of `cleanupSession(socketId)` (part_001 1115–1144): each native close is
wrapped in its own `try`/`catch` that only logs the error, and the
session entry is deleted unconditionally afterwards.  Returns the new
sessions map and the logged errors. -/
def cleanupSession (ok : Nat → Bool) (sessions : List (String × Session))
    (sid : String) : List (String × Session) × List CleanupLog :=
  match lookup sessions sid with
  | none => (sessions, [])
  | some s =>
    let pageLog :=
      match s.page with
      | some pg => if ok pg.nid then [] else [CleanupLog.pageCloseFailed pg.nid]
      | none => []
    let browserLog :=
      match s.browser with
      | some br => if ok br.nid then [] else [CleanupLog.browserCloseFailed br.nid]
      | none => []
    (eraseKey sessions sid, pageLog ++ browserLog)

/-- Concrete one-browser / one-context / one-page registry used by the
witnesses. -/
def brW : Br := ⟨0⟩

/-- Concrete context handle owned by `brW`. -/
def ctxW : Ctx := ⟨1, brW⟩

/-- Concrete page handle owned by `ctxW`. -/
def pgW : Pg := ⟨2, ctxW⟩

/-- Concrete valid registry state for the witnesses. -/
def regW : Registry := ⟨[("b", brW)], [("c", ctxW)], [("p", pgW)]⟩

/-- Registry for the C2/C3 counterexamples: one browser, one context with
two pages (C2), or two contexts with one page under the first (C3). -/
def regC2 : Registry :=
  ⟨[("b", ⟨0⟩)], [("c", ⟨1, ⟨0⟩⟩)],
    [("p1", ⟨2, ⟨1, ⟨0⟩⟩⟩), ("p2", ⟨3, ⟨1, ⟨0⟩⟩⟩)]⟩

/-- Close oracle whose native close fails exactly on native id 3. -/
def okFail3 : Nat → Bool := fun n => !(n == 3)

/-- Registry for the C3 counterexample: browser `b` with sibling contexts
`c1`, `c2`, and page `p1` (native id 3, whose close fails) under `c1`. -/
def regC3 : Registry :=
  ⟨[("b", ⟨0⟩)], [("c1", ⟨1, ⟨0⟩⟩), ("c2", ⟨4, ⟨0⟩⟩)],
    [("p1", ⟨3, ⟨1, ⟨0⟩⟩⟩)]⟩

/-- Concrete session map for the C3 witness. -/
def sessionsW : List (String × Session) := [("sock", ⟨some pgW, some brW⟩)]

/-- Registry for the C8 counterexample: page id `p` is registered but no
context is. -/
def regC8 : Registry := ⟨[], [], [("p", ⟨5, ⟨6, ⟨7⟩⟩⟩)]⟩

/-- Concrete page behaviour for the C4 witness: the direct CSS strategy
(`foo`) matches nothing, the text strategy (`text=foo`) matches one
visible element. -/
def domW : PageDom :=
  ⟨fun l => if l == "text=foo" then 1 else 0, fun l => l == "text=foo",
    fun _ => false⟩

/-- Step executor for the C5 witness: the command `boom` throws, anything
else succeeds. -/
def execW : WorkflowStep → Except String Nat :=
  fun s => if s.command == "boom" then .error "boom" else .ok 1

/-- Two-step workflow for the C5 witness: the first step succeeds, the
second throws. -/
def stepsW : List WorkflowStep := [⟨"s1", "go"⟩, ⟨"s2", "boom"⟩]

/-- Decidable equality on `Except`, needed to decide concrete facts about
the creation operations. -/
instance {ε α : Type} [DecidableEq ε] [DecidableEq α] :
    DecidableEq (Except ε α) := fun x y =>
  match x, y with
  | .ok a, .ok b =>
    if h : a = b then .isTrue (by rw [h]) else .isFalse (by simp [h])
  | .error a, .error b =>
    if h : a = b then .isTrue (by rw [h]) else .isFalse (by simp [h])
  | .ok _, .error _ => .isFalse (by simp)
  | .error _, .ok _ => .isFalse (by simp)

/-! ### Map lemmas -/

theorem lookup_cons {α : Type} (e : String × α) (rest : List (String × α))
    (k : String) :
    lookup (e :: rest) k = if e.1 = k then some e.2 else lookup rest k := by
  by_cases h : e.1 = k <;> simp [lookup, List.find?_cons, h]

theorem eraseKey_cons_drop {α : Type} (e : String × α) (rest : List (String × α))
    (k : String) (h : e.1 = k) : eraseKey (e :: rest) k = eraseKey rest k := by
  simp [eraseKey, List.filter_cons, h]

theorem eraseKey_cons_keep {α : Type} (e : String × α) (rest : List (String × α))
    (k : String) (h : ¬ e.1 = k) :
    eraseKey (e :: rest) k = e :: eraseKey rest k := by
  simp [eraseKey, List.filter_cons, h]

theorem lookup_eraseKey_self {α : Type} (l : List (String × α)) (k : String) :
    lookup (eraseKey l k) k = none := by
  induction l with
  | nil => rfl
  | cons e rest ih =>
    by_cases h : e.1 = k
    · rw [eraseKey_cons_drop e rest k h]; exact ih
    · rw [eraseKey_cons_keep e rest k h, lookup_cons, if_neg h]; exact ih

theorem lookup_eraseKey_ne {α : Type} (l : List (String × α)) (k k' : String)
    (h : k' ≠ k) : lookup (eraseKey l k) k' = lookup l k' := by
  induction l with
  | nil => rfl
  | cons e rest ih =>
    by_cases he : e.1 = k
    · have hne : ¬ e.1 = k' := fun hk => h (hk.symm.trans he)
      rw [eraseKey_cons_drop e rest k he, lookup_cons, if_neg hne]; exact ih
    · rw [eraseKey_cons_keep e rest k he, lookup_cons, lookup_cons]
      by_cases he' : e.1 = k'
      · rw [if_pos he', if_pos he']
      · rw [if_neg he', if_neg he']; exact ih

/-! ### Cascade-loop lemmas -/

theorem closePagesLoop_all_ok (ok : Nat → Bool) (ctx : Ctx)
    (ps : List (String × Pg)) (h : ∀ n, ok n = true) :
    closePagesLoop ok ctx ps = (none, ps.filter (fun e => !(e.2.ctx == ctx))) := by
  induction ps with
  | nil => rfl
  | cons e rest ih =>
    by_cases hc : e.2.ctx = ctx
    · simp [closePagesLoop, List.filter_cons, hc, h, ih]
    · simp [closePagesLoop, List.filter_cons, hc, ih]

theorem closePagesLoop_sublist (ok : Nat → Bool) (ctx : Ctx)
    (ps : List (String × Pg)) : (closePagesLoop ok ctx ps).2.Sublist ps := by
  induction ps with
  | nil => simp [closePagesLoop]
  | cons e rest ih =>
    by_cases hc : e.2.ctx = ctx
    · by_cases ho : ok e.2.nid = true
      · rw [closePagesLoop, if_pos hc, if_pos ho]
        exact ih.cons e
      · rw [closePagesLoop, if_pos hc, if_neg ho]
    · rw [closePagesLoop, if_neg hc]
      exact ih.cons₂ e

theorem closePagesLoop_none_eq (ok : Nat → Bool) (ctx : Ctx)
    (ps : List (String × Pg)) (h : (closePagesLoop ok ctx ps).1 = none) :
    (closePagesLoop ok ctx ps).2 = ps.filter (fun e => !(e.2.ctx == ctx)) := by
  induction ps with
  | nil => rfl
  | cons e rest ih =>
    by_cases hc : e.2.ctx = ctx
    · by_cases ho : ok e.2.nid = true
      · rw [closePagesLoop, if_pos hc, if_pos ho] at h ⊢
        rw [List.filter_cons, if_neg (by simp [hc]), ih h]
      · rw [closePagesLoop, if_pos hc, if_neg ho] at h
        simp at h
    · rw [closePagesLoop, if_neg hc] at h ⊢
      rw [List.filter_cons, if_pos (by simp [hc]), ih h]

theorem closePagesLoop_keeps_nonmatching (ok : Nat → Bool) (ctx : Ctx)
    (ps : List (String × Pg)) :
    (closePagesLoop ok ctx ps).2.filter (fun e => !(e.2.ctx == ctx)) =
      ps.filter (fun e => !(e.2.ctx == ctx)) := by
  induction ps with
  | nil => rfl
  | cons e rest ih =>
    by_cases hc : e.2.ctx = ctx
    · by_cases ho : ok e.2.nid = true
      · rw [closePagesLoop, if_pos hc, if_pos ho, ih,
          List.filter_cons, if_neg (by simp [hc])]
      · rw [closePagesLoop, if_pos hc, if_neg ho]
    · rw [closePagesLoop, if_neg hc]
      rw [List.filter_cons, if_pos (by simp [hc]),
        List.filter_cons, if_pos (by simp [hc]), ih]

theorem closeCtxsLoop_all_ok (ok : Nat → Bool) (br : Br)
    (ps : List (String × Pg)) (cs : List (String × Ctx)) (h : ∀ n, ok n = true) :
    closeCtxsLoop ok br ps cs =
      (none, cs.filter (fun e => !(e.2.br == br)),
        ps.filter (fun e =>
          !(cs.any (fun ce => ce.2.br == br && e.2.ctx == ce.2)))) := by
  induction cs generalizing ps with
  | nil => simp [closeCtxsLoop]
  | cons e rest ih =>
    by_cases hb : e.2.br = br
    · rw [closeCtxsLoop, if_pos hb, closePagesLoop_all_ok ok e.2 ps h]
      simp only [h e.2.nid, if_true]
      rw [ih, List.filter_filter]
      simp only [Prod.mk.injEq]
      refine ⟨trivial, ?_, ?_⟩
      · rw [List.filter_cons, if_neg (by simp [hb])]
      · refine List.filter_congr ?_
        intro x _
        simp only [List.any_cons, hb, beq_self_eq_true, Bool.true_and, Bool.not_or]
        exact Bool.and_comm _ _
    · rw [closeCtxsLoop, if_neg hb, ih]
      simp only [Prod.mk.injEq]
      refine ⟨trivial, ?_, ?_⟩
      · rw [List.filter_cons, if_pos (by simp [hb])]
      · refine List.filter_congr ?_
        intro x _
        simp [List.any_cons, hb]

/-! ### Claim theorems -/

/-- C1: Cascade completeness of the registry.  For every registry state
whose ownership hierarchy is valid (every registered page's parent context
is itself registered), and with every underlying native close succeeding,
closing a browser removes the browser's entry and every context whose
parent is that browser and every page whose parent context belongs to that
browser, and closing a context removes the context's entry and every page
whose parent is that context: no entry for the closed handle or any of its
descendants remains in any map. -/
theorem C1_cascade_completeness (ok : Nat → Bool) (r : Registry)
    (hok : ∀ n, ok n = true) :
    (∀ bid br, lookup r.browsers bid = some br →
      (∀ e ∈ r.pages, ∃ ce ∈ r.contexts, ce.2 = e.2.ctx) →
      (closeBrowser ok r bid).1 = none ∧
      lookup (closeBrowser ok r bid).2.browsers bid = none ∧
      (∀ e ∈ (closeBrowser ok r bid).2.contexts, e.2.br ≠ br) ∧
      (∀ e ∈ (closeBrowser ok r bid).2.pages, e.2.ctx.br ≠ br)) ∧
    (∀ cid ctx, lookup r.contexts cid = some ctx →
      (closeContext ok r cid).1 = none ∧
      lookup (closeContext ok r cid).2.contexts cid = none ∧
      (∀ e ∈ (closeContext ok r cid).2.pages, e.2.ctx ≠ ctx)) := by
  constructor
  · intro bid br hb hvalid
    have hcl := closeCtxsLoop_all_ok ok br r.pages r.contexts hok
    simp only [closeBrowser, hb, hcl, hok br.nid, if_true]
    refine ⟨trivial, lookup_eraseKey_self _ _, ?_, ?_⟩
    · intro e he
      rw [List.mem_filter] at he
      simpa using he.2
    · intro e he hbr
      rw [List.mem_filter] at he
      obtain ⟨hmem, hcond⟩ := he
      obtain ⟨ce, hce, hceq⟩ := hvalid e hmem
      simp only [Bool.not_eq_true', List.any_eq_false] at hcond
      have hfalse := hcond ce hce
      rw [hceq] at hfalse
      simp [hbr] at hfalse
  · intro cid ctx hc
    have hpl := closePagesLoop_all_ok ok ctx r.pages hok
    simp only [closeContext, hc, hpl, hok ctx.nid, if_true]
    refine ⟨trivial, lookup_eraseKey_self _ _, ?_⟩
    intro e he hctx
    rw [List.mem_filter] at he
    simp [hctx] at he

/-- Witness for C1 at the concrete registry `regW`. -/
theorem C1_cascade_completeness_witness :
    (closeBrowser (fun _ => true) regW "b").1 = none ∧
    lookup (closeBrowser (fun _ => true) regW "b").2.browsers "b" = none ∧
    lookup (closeContext (fun _ => true) regW "c").2.contexts "c" = none := by
  have h1 := (C1_cascade_completeness (fun _ => true) regW (fun _ => rfl)).1
    "b" brW (by decide) (by decide)
  have h2 := (C1_cascade_completeness (fun _ => true) regW (fun _ => rfl)).2
    "c" ctxW (by decide)
  exact ⟨h1.1, h1.2.1, h2.2.1⟩

/-- C10: Frame property of close_page.  For every registry state
containing the given page id, when the native close succeeds, closing that
page removes exactly that one entry from the pages map and leaves every
other page entry, the contexts map and the browsers map unchanged. -/
theorem C10_closePage_frame (ok : Nat → Bool) (r : Registry) (pid : String)
    (pg : Pg) (h : lookup r.pages pid = some pg) (hok : ok pg.nid = true) :
    (closePage ok r pid).1 = none ∧
    lookup (closePage ok r pid).2.pages pid = none ∧
    (∀ q, q ≠ pid → lookup (closePage ok r pid).2.pages q = lookup r.pages q) ∧
    (closePage ok r pid).2.contexts = r.contexts ∧
    (closePage ok r pid).2.browsers = r.browsers := by
  simp only [closePage, h, hok, if_true]
  exact ⟨trivial, lookup_eraseKey_self _ _,
    fun q hq => lookup_eraseKey_ne _ _ _ hq, trivial, trivial⟩

/-- Witness for C10 at the concrete registry `regW`. -/
theorem C10_closePage_frame_witness :
    lookup regW.pages "p" = some pgW ∧
    (closePage (fun _ => true) regW "p").1 = none ∧
    lookup (closePage (fun _ => true) regW "p").2.pages "p" = none ∧
    (closePage (fun _ => true) regW "p").2.contexts = regW.contexts ∧
    (closePage (fun _ => true) regW "p").2.browsers = regW.browsers := by
  have h := C10_closePage_frame (fun _ => true) regW "p" pgW (by decide) rfl
  exact ⟨by decide, h.1, h.2.1, h.2.2.2.1, h.2.2.2.2⟩

/-- C2 counterexample: closing context `c` of `regC2` fails (the native
close of page `p2`, native id 3, throws), yet the registry is NOT left as
it was — page `p1` has already been removed.  This refutes the claim that
a failing close leaves the registry maps exactly as they were. -/
theorem C2_close_atomicity_counterexample :
    ((closeContext okFail3 regC2 "c").1).isSome = true ∧
    (closeContext okFail3 regC2 "c").2 ≠ regC2 ∧
    lookup (closeContext okFail3 regC2 "c").2.pages "p1" = none ∧
    lookup regC2.pages "p1" = some ⟨2, ⟨1, ⟨0⟩⟩⟩ := by decide

/-- C2 (amended): a successful close removes the handle and its entire
subtree, but a failed close is not atomic: the target context entry and
the browsers map are retained, every removed page belonged to the cascade
(the result is a sublist of the original pages with all non-descendant
pages untouched), and pages whose native close succeeded before the
failure stay removed. -/
theorem C2_close_cascade_cleanup (ok : Nat → Bool) (r : Registry)
    (cid : String) (ctx : Ctx) (h : lookup r.contexts cid = some ctx) :
    (closeContext ok r cid).2.browsers = r.browsers ∧
    ((closeContext ok r cid).1 = none →
      (closeContext ok r cid).2.pages =
        r.pages.filter (fun e => !(e.2.ctx == ctx)) ∧
      (closeContext ok r cid).2.contexts = eraseKey r.contexts cid) ∧
    ((closeContext ok r cid).1.isSome = true →
      lookup (closeContext ok r cid).2.contexts cid = some ctx ∧
      (closeContext ok r cid).2.pages.Sublist r.pages ∧
      (closeContext ok r cid).2.pages.filter (fun e => !(e.2.ctx == ctx)) =
        r.pages.filter (fun e => !(e.2.ctx == ctx))) := by
  cases hq : (closePagesLoop ok ctx r.pages).1 with
  | none =>
    by_cases hok : ok ctx.nid = true
    · simp only [closeContext, h, hq, hok, if_true]
      refine ⟨trivial, fun _ => ⟨closePagesLoop_none_eq ok ctx r.pages hq, trivial⟩, ?_⟩
      intro habs
      simp at habs
    · simp only [closeContext, h, hq, hok, if_false, Bool.false_eq_true]
      refine ⟨trivial, ?_, ?_⟩
      · intro habs
        simp at habs
      · intro _
        exact ⟨trivial, closePagesLoop_sublist ok ctx r.pages,
          closePagesLoop_keeps_nonmatching ok ctx r.pages⟩
  | some n =>
    simp only [closeContext, h, hq]
    refine ⟨trivial, ?_, ?_⟩
    · intro habs
      simp at habs
    · intro _
      exact ⟨trivial, closePagesLoop_sublist ok ctx r.pages,
        closePagesLoop_keeps_nonmatching ok ctx r.pages⟩

/-- Witness for C2's amended theorem at the failing close of `regC2`. -/
theorem C2_close_cascade_cleanup_witness :
    lookup regC2.contexts "c" = some ⟨1, ⟨0⟩⟩ ∧
    (closeContext okFail3 regC2 "c").2.browsers = regC2.browsers ∧
    lookup (closeContext okFail3 regC2 "c").2.contexts "c" = some ⟨1, ⟨0⟩⟩ := by
  have h := C2_close_cascade_cleanup okFail3 regC2 "c" ⟨1, ⟨0⟩⟩ (by decide)
  exact ⟨by decide, h.1, (h.2.2 (by decide)).1⟩

/-- C3 counterexample: in `closeBrowser`, the native close of page `p1`
fails and the cascade ABORTS — the sibling context `c2`, the parent
context `c1` and the ancestor browser `b` all keep their registry entries.
This refutes the claim that a native close failure does not prevent
removal of sibling/ancestor bookkeeping for every cascade close. -/
theorem C3_cascade_abort_counterexample :
    ((closeBrowser okFail3 regC3 "b").1).isSome = true ∧
    lookup (closeBrowser okFail3 regC3 "b").2.contexts "c2" = some ⟨4, ⟨0⟩⟩ ∧
    lookup (closeBrowser okFail3 regC3 "b").2.contexts "c1" = some ⟨1, ⟨0⟩⟩ ∧
    lookup (closeBrowser okFail3 regC3 "b").2.browsers "b" = some ⟨0⟩ := by decide

/-- C3 (amended): only the session cleanup path survives native close
failures: `cleanupSession` wraps each native close in its own try/catch,
so whatever closes fail, the session entry is always removed, other
sessions are untouched, and each failure is surfaced in the log. -/
theorem C3_cleanupSession_survives_failures (ok : Nat → Bool)
    (sessions : List (String × Session)) (sid : String) (s : Session)
    (h : lookup sessions sid = some s) :
    lookup (cleanupSession ok sessions sid).1 sid = none ∧
    (∀ sid', sid' ≠ sid →
      lookup (cleanupSession ok sessions sid).1 sid' = lookup sessions sid') ∧
    (∀ pg, s.page = some pg → ok pg.nid = false →
      CleanupLog.pageCloseFailed pg.nid ∈ (cleanupSession ok sessions sid).2) ∧
    (∀ br, s.browser = some br → ok br.nid = false →
      CleanupLog.browserCloseFailed br.nid ∈ (cleanupSession ok sessions sid).2) := by
  simp only [cleanupSession, h]
  refine ⟨lookup_eraseKey_self _ _,
    fun sid' h' => lookup_eraseKey_ne _ _ _ h', ?_, ?_⟩
  · intro pg hpg hok
    refine List.mem_append_left _ ?_
    simp [hpg, hok]
  · intro br hbr hok
    refine List.mem_append_right _ ?_
    simp [hbr, hok]

/-- Witness for C3's amended theorem: even when every native close fails,
the session entry is removed and the page failure is logged. -/
theorem C3_cleanupSession_survives_failures_witness :
    lookup sessionsW "sock" = some ⟨some pgW, some brW⟩ ∧
    lookup (cleanupSession (fun _ => false) sessionsW "sock").1 "sock" = none ∧
    CleanupLog.pageCloseFailed 2 ∈
      (cleanupSession (fun _ => false) sessionsW "sock").2 := by
  have h := C3_cleanupSession_survives_failures (fun _ => false) sessionsW
    "sock" ⟨some pgW, some brW⟩ (by decide)
  exact ⟨by decide, h.1, h.2.2.1 pgW rfl rfl⟩

/-- C8 counterexample: `createPage` is called with a page id (`p`) that is
already present in the pages map, but because the parent-context lookup
precedes the duplicate-id check, the call fails with ParentNotFound, not
DuplicateId.  This refutes the claim that a creation call with an already
present id always fails with a DuplicateId error. -/
theorem C8_duplicate_id_counterexample :
    (lookup regC8.pages "p").isSome = true ∧
    createPage regC8 9 "c" "p" = .error (.parentNotFound "c") ∧
    (Except.error (CreateErr.parentNotFound "c") :
        Except CreateErr Registry) ≠ .error (.duplicateId "p") := by decide

/-- C8 (amended): a creation call whose id is already present in that
kind's map fails and stores nothing; the error is DuplicateId for
launch_browser always, and for create_context / create_page whenever the
parent exists — when the parent is missing the ParentNotFound check fires
first.  An id absent from the map (for instance after a close removed it)
never triggers the duplicate failure: with the parent present the call
succeeds. -/
theorem C8_duplicate_id_rejection (r : Registry) (fresh : Nat) :
    (∀ bt bid, (lookup r.browsers bid).isSome = true →
      launchBrowser r fresh bt bid = .error (.duplicateId bid)) ∧
    (∀ bid cid br, lookup r.browsers bid = some br →
      (lookup r.contexts cid).isSome = true →
      createContext r fresh bid cid = .error (.duplicateId cid)) ∧
    (∀ cid pid ctx, lookup r.contexts cid = some ctx →
      (lookup r.pages pid).isSome = true →
      createPage r fresh cid pid = .error (.duplicateId pid)) ∧
    (∀ bid cid, lookup r.browsers bid = none →
      createContext r fresh bid cid = .error (.parentNotFound bid)) ∧
    (∀ cid pid, lookup r.contexts cid = none →
      createPage r fresh cid pid = .error (.parentNotFound cid)) ∧
    (∀ cid pid ctx, lookup r.contexts cid = some ctx →
      lookup r.pages pid = none →
      createPage r fresh cid pid =
        .ok { r with pages := r.pages ++ [(pid, ⟨fresh, ctx⟩)] }) := by
  refine ⟨?_, ?_, ?_, ?_, ?_, ?_⟩
  · intro bt bid h
    simp [launchBrowser, h]
  · intro bid cid br h h2
    simp [createContext, h, h2]
  · intro cid pid ctx h h2
    simp [createPage, h, h2]
  · intro bid cid h
    simp [createContext, h]
  · intro cid pid h
    simp [createPage, h]
  · intro cid pid ctx h h2
    simp [createPage, h, h2]

/-- Witness for C8's amended theorem at the concrete registry `regW`. -/
theorem C8_duplicate_id_rejection_witness :
    launchBrowser regW 9 "chromium" "b" = .error (.duplicateId "b") ∧
    createContext regW 9 "b" "c" = .error (.duplicateId "c") ∧
    createPage regW 9 "c" "p" = .error (.duplicateId "p") := by
  have h := C8_duplicate_id_rejection regW 9
  exact ⟨h.1 "chromium" "b" (by decide),
    h.2.1 "b" "c" brW (by decide) (by decide),
    h.2.2.1 "c" "p" ctxW (by decide) (by decide)⟩

/-- The strategy loop returns the first qualifying strategy's locator. -/
theorem findElemGo_first (dom : PageDom) (sel : String)
    (l : List (String → String)) (i : Nat) (hi : i < l.length)
    (hq : locatorFound dom ((l.getD i id) sel) = true)
    (hmin : ∀ j, j < i → locatorFound dom ((l.getD j id) sel) = false) :
    findElemGo dom sel l = some ((l.getD i id) sel) := by
  induction l generalizing i with
  | nil => simp at hi
  | cons f rest ih =>
    cases i with
    | zero =>
      simp only [List.getD_cons_zero] at hq ⊢
      rw [findElemGo, if_pos hq]
    | succ j =>
      have h0 := hmin 0 (Nat.succ_pos j)
      simp only [List.getD_cons_zero] at h0
      rw [findElemGo, if_neg (by simp [h0])]
      simp only [List.getD_cons_succ] at hq ⊢
      exact ih j (Nat.lt_of_succ_lt_succ hi) hq (fun j' hj' => by
        have hs := hmin (j' + 1) (Nat.succ_lt_succ hj')
        simpa [List.getD_cons_succ] using hs)

/-- If no strategy qualifies, the loop falls through to `null`. -/
theorem findElemGo_none (dom : PageDom) (sel : String)
    (l : List (String → String))
    (h : ∀ x ∈ l, locatorFound dom (x sel) = false) :
    findElemGo dom sel l = none := by
  induction l with
  | nil => rfl
  | cons f rest ih =>
    rw [findElemGo, if_neg (by simp [h f (List.mem_cons_self f rest)])]
    exact ih (fun x hx => h x (List.mem_cons_of_mem f hx))

/-- C4: Element resolution obeys strict strategy precedence.  `findElement`
iterates the fixed ordered strategy list; the first strategy index whose
candidate set is non-empty with a visible first candidate (and that does
not throw) determines the result — no later strategy's locator is ever
returned — and when no strategy qualifies the result is NotFound
(`none`). -/
theorem C4_findElement_strategy_precedence (dom : PageDom) (sel : String) :
    (∀ i, i < PLAYWRIGHT_SELECTOR_STRATEGIES.length →
      locatorFound dom ((PLAYWRIGHT_SELECTOR_STRATEGIES.getD i id) sel) = true →
      (∀ j, j < i →
        locatorFound dom ((PLAYWRIGHT_SELECTOR_STRATEGIES.getD j id) sel) = false) →
      findElement dom sel =
        some ((PLAYWRIGHT_SELECTOR_STRATEGIES.getD i id) sel)) ∧
    ((∀ i, i < PLAYWRIGHT_SELECTOR_STRATEGIES.length →
      locatorFound dom ((PLAYWRIGHT_SELECTOR_STRATEGIES.getD i id) sel) = false) →
      findElement dom sel = none) := by
  constructor
  · intro i hi hq hmin
    exact findElemGo_first dom sel _ i hi hq hmin
  · intro h
    refine findElemGo_none dom sel _ ?_
    intro x hx
    obtain ⟨i, hi, hxi⟩ := List.getElem_of_mem hx
    have hfalse := h i hi
    rwa [List.getD_eq_getElem _ _ hi, hxi] at hfalse

/-- Witness for C4: on `domW` the second strategy (text match) is the first
to qualify and its locator is returned. -/
theorem C4_findElement_strategy_precedence_witness :
    locatorFound domW "foo" = false ∧
    locatorFound domW "text=foo" = true ∧
    findElement domW "foo" = some "text=foo" := by
  have h := (C4_findElement_strategy_precedence domW "foo").1 1 (by decide)
    (by decide)
    (fun j hj => by
      have hj0 : j = 0 := Nat.lt_one_iff.mp hj
      subst hj0
      decide)
  exact ⟨by decide, by decide, h⟩

/-- The workflow loop records one entry per step, in step order. -/
theorem workflowLoop_length {R : Type} (exec : WorkflowStep → Except String R)
    (steps : List WorkflowStep) :
    (workflowLoop exec steps).length = steps.length := by
  induction steps with
  | nil => rfl
  | cons s rest ih => simp [workflowLoop, ih]

/-- The i-th workflow entry is determined by the i-th step's own
execution outcome alone. -/
theorem workflowLoop_getD {R : Type} (exec : WorkflowStep → Except String R)
    (steps : List WorkflowStep) (i : Nat) (d : WorkflowStep)
    (dr : WorkflowEntry R) (hi : i < steps.length) :
    (workflowLoop exec steps).getD i dr =
      match exec (steps.getD i d) with
      | .ok result => WorkflowEntry.success (steps.getD i d).name result
      | .error msg => WorkflowEntry.failure (steps.getD i d).name msg := by
  induction steps generalizing i with
  | nil => simp at hi
  | cons s rest ih =>
    cases i with
    | zero => simp [workflowLoop, List.getD_cons_zero]
    | succ j =>
      simp only [workflowLoop, List.getD_cons_succ]
      exact ih j (Nat.lt_of_succ_lt_succ hi)

/-- C5: Workflow step isolation.  `executeWorkflow` records each step's
success or failure independently, in step order; a step that throws is
recorded as an error entry and does not prevent any later step from being
attempted (every index's entry is determined by that step's own outcome);
and the workflow response reports overall success regardless of step
failures. -/
theorem C5_workflow_step_isolation {R : Type}
    (exec : WorkflowStep → Except String R) (steps : List WorkflowStep) :
    (executeWorkflow exec steps).success = true ∧
    (executeWorkflow exec steps).workflow.length = steps.length ∧
    (∀ i d dr, i < steps.length →
      (executeWorkflow exec steps).workflow.getD i dr =
        match exec (steps.getD i d) with
        | .ok result => WorkflowEntry.success (steps.getD i d).name result
        | .error msg => WorkflowEntry.failure (steps.getD i d).name msg) := by
  refine ⟨rfl, workflowLoop_length exec steps, ?_⟩
  intro i d dr hi
  exact workflowLoop_getD exec steps i d dr hi

/-- Witness for C5: the failing second step is recorded as an error entry
after the successful first one, and the workflow still reports success. -/
theorem C5_workflow_step_isolation_witness :
    (executeWorkflow execW stepsW).success = true ∧
    (executeWorkflow execW stepsW).workflow.getD 0 (WorkflowEntry.failure "" "") =
      WorkflowEntry.success "s1" 1 ∧
    (executeWorkflow execW stepsW).workflow.getD 1 (WorkflowEntry.failure "" "") =
      WorkflowEntry.failure "s2" "boom" := by
  have h := C5_workflow_step_isolation execW stepsW
  refine ⟨h.1, ?_, ?_⟩
  · rw [h.2.2 0 ⟨"", ""⟩ (WorkflowEntry.failure "" "") (by decide)]
    decide
  · rw [h.2.2 1 ⟨"", ""⟩ (WorkflowEntry.failure "" "") (by decide)]
    decide

/-- The retry argument `"2000"` always parses to the positive 2000, so the
self-call never recurses further, whatever fuel remains. -/
theorem handleWaitF_2000 (m : Nat) :
    handleWaitF (m + 1) "2000" =
      some ([WaitEvent.waiting 2000, WaitEvent.complete], 2000) := by
  have hp : jsParseInt "2000" = some 2000 := by decide
  simp [handleWaitF, jsOrDefault, hp]

/-- C6 counterexample: the non-numeric wait duration `abc` produces a
2000 ms wait with NO warning event — `parseInt` gives NaN, which the
`|| 2000` fallback silently replaces before the sign check ever fires.
This refutes the claim that non-numeric input is accompanied by a
warning. -/
theorem C6_wait_no_warning_counterexample :
    handleWaitF 2 "abc" =
      some ([WaitEvent.waiting 2000, WaitEvent.complete], 2000) ∧
    WaitEvent.warnInvalid "abc" ∉
      [WaitEvent.waiting 2000, WaitEvent.complete] := by decide

/-- C6 (amended): non-numeric input and input parsing to zero wait exactly
the default 2000 ms with no warning (the falsy parse is silently replaced
by the JS `||` fallback); input whose integer prefix parses to a negative
number triggers the warning and one retry that waits 2000 ms; input whose
integer prefix parses to a positive number waits exactly that many
milliseconds. -/
theorem C6_wait_duration_fallback (d : String) :
    (jsParseInt d = none →
      handleWaitF 2 d =
        some ([WaitEvent.waiting 2000, WaitEvent.complete], 2000)) ∧
    (jsParseInt d = some 0 →
      handleWaitF 2 d =
        some ([WaitEvent.waiting 2000, WaitEvent.complete], 2000)) ∧
    (∀ v : Int, jsParseInt d = some v → v < 0 →
      handleWaitF 2 d =
        some ([WaitEvent.warnInvalid d, WaitEvent.waiting 2000,
          WaitEvent.complete], 2000)) ∧
    (∀ v : Int, jsParseInt d = some v → 0 < v →
      handleWaitF 2 d = some ([WaitEvent.waiting v, WaitEvent.complete], v)) := by
  refine ⟨?_, ?_, ?_, ?_⟩
  · intro h
    simp [handleWaitF, jsOrDefault, h]
  · intro h
    simp [handleWaitF, jsOrDefault, h]
  · intro v h hv
    simp only [handleWaitF, jsOrDefault, h]
    rw [if_neg (by omega : ¬ v = 0), if_pos (by omega : v ≤ 0)]
    simp [show jsParseInt "2000" = some 2000 from by decide]
  · intro v h hv
    simp only [handleWaitF, jsOrDefault, h]
    rw [if_neg (by omega : ¬ v = 0), if_neg (by omega : ¬ v ≤ 0)]

/-- Witness for C6's amended theorem at the negative duration `-7`. -/
theorem C6_wait_duration_fallback_witness :
    jsParseInt "-7" = some (-7) ∧
    handleWaitF 2 "-7" =
      some ([WaitEvent.warnInvalid "-7", WaitEvent.waiting 2000,
        WaitEvent.complete], 2000) := by
  have h := (C6_wait_duration_fallback "-7").2.2.1 (-7) (by decide) (by decide)
  exact ⟨by decide, h⟩

/-- C9 counterexample: for the non-positive input `-5`, `parseInt` yields
-5, which is truthy and therefore NOT replaced by 2000 by the `||`
fallback: it reaches the sign check, which fires the warning and the
retry.  This refutes the claim's stated mechanism that every non-positive
or non-numeric parse is replaced by 2000 via the `||` fallback before the
sign check. -/
theorem C9_fallback_mechanism_counterexample :
    jsOrDefault (jsParseInt "-5") 2000 = -5 ∧
    handleWaitF 2 "-5" =
      some ([WaitEvent.warnInvalid "-5", WaitEvent.waiting 2000,
        WaitEvent.complete], 2000) := by decide

/-- C9 (amended): handleWait terminates for every input string.
Non-numeric and zero parses are replaced by 2000 by the `||` fallback; a
negative parse passes the fallback and takes the retry path with `"2000"`,
which always parses to the positive 2000, so the retry is taken at most
once: two units of fuel suffice for every input (the result is
fuel-independent from 2 on and never runs out). -/
theorem C9_handleWait_retry_bounded :
    (∀ n d, handleWaitF (n + 2) d = handleWaitF 2 d) ∧
    (∀ d, (handleWaitF 2 d).isSome = true) := by
  have hp : jsParseInt "2000" = some 2000 := by decide
  constructor
  · intro n d
    show handleWaitF (n + 1 + 1) d = handleWaitF (1 + 1) d
    simp only [handleWaitF]
    simp [hp, jsOrDefault]
  · intro d
    show (handleWaitF (1 + 1) d).isSome = true
    simp only [handleWaitF]
    simp only [hp, jsOrDefault]
    split <;> simp

/-- C7 counterexample: the scroll direction `left` does not produce a
horizontal delta of -500 — `handleScroll` has no `left` case, so it falls
to the default arm: a warning and no scroll; and in the REST variant an
unrecognized token (`scroll sideways`) scrolls down by the default
`(0, 500)` instead of warning and doing nothing. -/
theorem C7_scroll_left_counterexample :
    handleScroll "left" = ScrollOutcome.warnedUnknown "left" ∧
    extractScrollData "scroll sideways" = (0, 500) := by decide

/-- C7 (amended): in the socket variant (`handleScroll`): `down` scrolls
by a vertical +500, `up` by -500, `top` and `home` scroll to the top edge,
`bottom` to the bottom edge, and every other token — including `left` and
`right` — reports a warning and performs no scroll.  In the REST variant
(`extractScrollData`): a command containing `down` maps to `(0, 500)`,
else `up` to `(0, -500)`, else `right` to `(500, 0)`, else `left` to
`(-500, 0)`, and any other command defaults to scrolling down `(0, 500)`
rather than warning. -/
theorem C7_scroll_direction_mapping :
    handleScroll "down" = .scrolled (.scrollBy 0 500) ∧
    handleScroll "up" = .scrolled (.scrollBy 0 (-500)) ∧
    handleScroll "top" = .scrolled .toTop ∧
    handleScroll "home" = .scrolled .toTop ∧
    handleScroll "bottom" = .scrolled .toBottom ∧
    (∀ d, jsToLowerCase d ≠ "down" → jsToLowerCase d ≠ "up" →
      jsToLowerCase d ≠ "top" → jsToLowerCase d ≠ "home" →
      jsToLowerCase d ≠ "bottom" → handleScroll d = .warnedUnknown d) ∧
    (∀ c, strIncludes c "down" = true → extractScrollData c = (0, 500)) ∧
    (∀ c, strIncludes c "down" = false → strIncludes c "up" = true →
      extractScrollData c = (0, -500)) ∧
    (∀ c, strIncludes c "down" = false → strIncludes c "up" = false →
      strIncludes c "right" = true → extractScrollData c = (500, 0)) ∧
    (∀ c, strIncludes c "down" = false → strIncludes c "up" = false →
      strIncludes c "right" = false → strIncludes c "left" = true →
      extractScrollData c = (-500, 0)) ∧
    (∀ c, strIncludes c "down" = false → strIncludes c "up" = false →
      strIncludes c "right" = false → strIncludes c "left" = false →
      extractScrollData c = (0, 500)) := by
  refine ⟨by decide, by decide, by decide, by decide, by decide,
    ?_, ?_, ?_, ?_, ?_, ?_⟩
  · intro d h1 h2 h3 h4 h5
    simp [handleScroll, h1, h2, h3, h4, h5]
  · intro c h
    simp [extractScrollData, h]
  · intro c h1 h2
    simp [extractScrollData, h1, h2]
  · intro c h1 h2 h3
    simp [extractScrollData, h1, h2, h3]
  · intro c h1 h2 h3 h4
    simp [extractScrollData, h1, h2, h3, h4]
  · intro c h1 h2 h3 h4
    simp [extractScrollData, h1, h2, h3, h4]

/-- Witness for C7's amended theorem: an unrecognized token warns and
performs no scroll in the socket variant, and a command containing `up`
scrolls `(0, -500)` in the REST variant. -/
theorem C7_scroll_direction_mapping_witness :
    handleScroll "diagonal" = ScrollOutcome.warnedUnknown "diagonal" ∧
    extractScrollData "scroll up" = (0, -500) := by
  have h := C7_scroll_direction_mapping
  exact ⟨h.2.2.2.2.2.1 "diagonal" (by decide) (by decide) (by decide)
      (by decide) (by decide),
    h.2.2.2.2.2.2.2.1 "scroll up" (by decide) (by decide)⟩

end MCP
